import Mathlib

/-!
Verification of the codespace lifecycle orchestrator (`pkg/cmd/codespace`):
the post-create status poller, the bulk delete coordinator, the rebuild
command, and the create pipeline (devcontainer, machine, permission
escalation stages), shallowly embedded from the Go source.
-/

namespace Gh

/-- Modelled from the spec: `PostCreateState` (task name and status) lives in
the `internal/codespaces` package, absent from the sampled sources; the spec
describes it as a task name unique within one provisioning run plus a status
that is `Running` or terminal. -/
structure PostCreateState where
  name : String
  status : String
deriving DecidableEq, Repr

/-- Modelled from the spec: the `Running` status constant of
`internal/codespaces`; every other status string is terminal. -/
def PostCreateStateRunning : String := "running"

/-- Result of one invocation of the `poller` closure of `showStatus`
(`pkg/cmd/codespace/create.go`): the updated `lastState`, the updated
`finishedStates` set, the names passed to `StartProgressIndicatorWithLabel`
during the pass (the reported names, in order), and the `inProgress` flag. -/
structure PassResult where
  lastState : PostCreateState
  finishedStates : List String
  reports : List String
  inProgress : Bool
deriving DecidableEq, Repr

/-- The scanning loop of the `poller` closure in `showStatus`
(`pkg/cmd/codespace/create.go`): walk the states in reported order, skipping
names already finished; a not-finished entry whose name differs from the
currently displayed one is reported; a running entry stops the scan; a
terminal entry is added to the finished set and scanning continues. -/
def pollPass (lastState : PostCreateState) (finished : List String) :
    List PostCreateState → PassResult
  | [] => ⟨lastState, finished, [], false⟩
  | s :: rest =>
    if s.name ∈ finished then
      pollPass lastState finished rest
    else if s.name ≠ lastState.name then
      if s.status = PostCreateStateRunning then
        ⟨s, finished, [s.name], true⟩
      else
        let r := pollPass lastState (s.name :: finished) rest
        { r with reports := s.name :: r.reports }
    else
      if s.status = PostCreateStateRunning then
        ⟨lastState, finished, [], true⟩
      else
        pollPass ⟨"", ""⟩ (s.name :: finished) rest

/-- The mutable state captured by the `poller` closure in `showStatus`:
`lastState`, `breakNextState`, `finishedStates`, and whether `stopPolling`
has been called. -/
structure PollerState where
  lastState : PostCreateState
  breakNextState : Bool
  finishedStates : List String
  stopped : Bool
deriving DecidableEq, Repr

/-- Initial poller state of `showStatus`: zero-valued `lastState`, flag
unset, empty finished set, polling active. -/
def initPollerState : PollerState := ⟨⟨"", ""⟩, false, [], false⟩

/-- One full invocation of the `poller` closure: run the scan, then apply the
termination logic — if no entry was in progress, stop if `breakNextState`
was already armed, otherwise arm it. Returns the new state and the names
reported during the pass. -/
def pollerStep (st : PollerState) (states : List PostCreateState) :
    PollerState × List String :=
  let r := pollPass st.lastState st.finishedStates states
  let st' : PollerState :=
    if r.inProgress then
      ⟨r.lastState, st.breakNextState, r.finishedStates, st.stopped⟩
    else if st.breakNextState then
      ⟨r.lastState, st.breakNextState, r.finishedStates, true⟩
    else
      ⟨r.lastState, true, r.finishedStates, st.stopped⟩
  (st', r.reports)

/-- Modelled from the spec: `PollPostCreateStates` (in the missing
`internal/codespaces` package) repeatedly fetches the current state list and
hands it to the poller until the context is cancelled; `stopPolling` cancels
that context, so no pass is processed after the poller stops. `runPoller`
feeds a scripted sequence of poll passes to the poller and collects every
reported name. -/
def runPoller (st : PollerState) : List (List PostCreateState) → PollerState × List String
  | [] => (st, [])
  | pass :: rest =>
    if st.stopped then (st, [])
    else
      let p := pollerStep st pass
      let q := runPoller p.1 rest
      (q.1, p.2 ++ q.2)

/-- The error handling at the end of `showStatus`: a context cancellation
with `breakNextState` set is the debounce logic's own stop and is reported
as success; any other polling error propagates. -/
def showStatusResult (st : PollerState) : Except String Unit :=
  if st.stopped && st.breakNextState then Except.ok ()
  else Except.error "failed to poll state changes from codespace: context canceled"

/-- `api.Codespace.GitStatus`: branch ref plus the uncommitted/unpushed
flags (the `api` package itself is outside the sampled sources; fields
mirror the uses in `pkg/cmd/codespace`). -/
structure GitStatus where
  ref : String
  hasUncommitedChanges : Bool
  hasUnpushedChanges : Bool
deriving DecidableEq, Repr

/-- `api.Codespace`, restricted to the fields read by
`pkg/cmd/codespace/{common,create,rebuild}.go` and the delete command. -/
structure Codespace where
  name : String
  createdAt : String
  lastUsedAt : String
  state : String
  pendingOperation : Bool
  pendingOperationDisabledReason : String
  repositoryFullName : String
  gitStatus : GitStatus
deriving DecidableEq, Repr

/-- Modelled from the spec: the `api.CodespaceStateRebuilding` lifecycle
constant (the `api` package is outside the sampled sources; the spec names
the `Rebuilding` lifecycle state). -/
def CodespaceStateRebuilding : String := "Rebuilding"

/-- `hasUnsavedChanges` from `pkg/cmd/codespace/common.go`: uncommitted or
unpushed work. -/
def hasUnsavedChanges (c : Codespace) : Bool :=
  c.gitStatus.hasUncommitedChanges || c.gitStatus.hasUnpushedChanges

/-- The pending-operation gate of `getOrChooseCodespace`
(`pkg/cmd/codespace/common.go`): given the outcome of fetching/choosing the
codespace record, fail with the pending-operation reason when the record has
a pending operation. -/
def getOrChooseCodespace (fetched : Except String Codespace) :
    Except String Codespace :=
  match fetched with
  | Except.error e => Except.error e
  | Except.ok c =>
    if c.pendingOperation then
      Except.error ("codespace is disabled while it has a pending operation: "
        ++ c.pendingOperationDisabledReason)
    else Except.ok c

instance {ε α : Type} [DecidableEq ε] [DecidableEq α] : DecidableEq (Except ε α) := fun x y =>
  match x, y with
  | Except.ok a, Except.ok b =>
    if h : a = b then Decidable.isTrue (congrArg Except.ok h)
    else Decidable.isFalse (fun hxy => h (Except.ok.inj hxy))
  | Except.error a, Except.error b =>
    if h : a = b then Decidable.isTrue (congrArg Except.error h)
    else Decidable.isFalse (fun hxy => h (Except.error.inj hxy))
  | Except.ok _, Except.error _ => Decidable.isFalse (fun hxy => Except.noConfusion hxy)
  | Except.error _, Except.ok _ => Decidable.isFalse (fun hxy => Except.noConfusion hxy)

/-- Observable outcome of `Rebuild` (`pkg/cmd/codespace/rebuild.go`):
whether a Live Share session was opened, whether a rebuild request was
issued through it, what was printed, and the returned error, if any. -/
structure RebuildTrace where
  sessionOpened : Bool
  rebuildIssued : Bool
  output : List String
  result : Except String Unit
deriving DecidableEq, Repr

/-- `Rebuild` from `pkg/cmd/codespace/rebuild.go`: resolve the codespace
(pending-operation gate included), short-circuit with success when it is
already rebuilding, otherwise open a Live Share session and issue the
rebuild through it. `sessionResult` and `rebuildResult` stand for the
outcomes of the external session-open and rebuild calls. -/
def Rebuild (fetched : Except String Codespace)
    (sessionResult : Except String Unit) (rebuildResult : Except String Unit) :
    RebuildTrace :=
  match getOrChooseCodespace fetched with
  | Except.error e => ⟨false, false, [], Except.error e⟩
  | Except.ok c =>
    if c.state = CodespaceStateRebuilding then
      ⟨false, false, [c.name ++ " is already rebuilding"], Except.ok ()⟩
    else
      match sessionResult with
      | Except.error e =>
        ⟨false, false, [], Except.error ("starting Live Share session: " ++ e)⟩
      | Except.ok _ =>
        match rebuildResult with
        | Except.error e =>
          ⟨true, true, [], Except.error ("rebuilding codespace via session: " ++ e)⟩
        | Except.ok _ =>
          ⟨true, true, [c.name ++ " is rebuilding"], Except.ok ()⟩

/-- `api.CreateCodespaceParams`, restricted to the fields the create flow
assembles and mutates (`pkg/cmd/codespace/create.go`). -/
structure CreateCodespaceParams where
  repositoryID : Nat
  branch : String
  machine : String
  location : String
  devContainerPath : String
  idleTimeoutMinutes : Nat
  permissionsOptOut : Bool
deriving DecidableEq, Repr

/-- Failure modes of `apiClient.CreateCodespace` as observed by
`Create`: an `api.AcceptPermissionsRequiredError` carrying
`AllowPermissionsURL`, or any other error. -/
inductive CreateError where
  | permissionsRequired (allowPermissionsURL : String)
  | other (msg : String)
deriving DecidableEq, Repr

/-- The error text of a `CreateError` as wrapped into surrounding
`fmt.Errorf` messages. -/
def renderCreateError : CreateError → String
  | CreateError.permissionsRequired url => "AcceptPermissionsRequiredError " ++ url
  | CreateError.other msg => msg

/-- Errors returned by `Create`: `cmdutil.SilentError` (the silent-failure
sentinel) or a normal message error. -/
inductive AppError where
  | silent
  | msg (s : String)
deriving DecidableEq, Repr

/-- The binary choice offered by `handleAdditionalPermissions` in
interactive mode: continue in the browser, or continue without authorizing
additional permissions. -/
inductive PermChoice where
  | browser
  | continueWithoutPerms
deriving DecidableEq, Repr

/-- `handleAdditionalPermissions` (`pkg/cmd/codespace/create.go`):
non-interactive mode prints guidance and fails with the silent sentinel
without a second create call; interactive mode either opens the browser and
fails silently, or flips `permissionsOptOut` to true and retries the
creation exactly once, wrapping any failure of that retry as a normal
error. Returns the outcome together with the number of `CreateCodespace`
calls it made. `create` stands for `apiClient.CreateCodespace`, `choice`
for the survey answer, `browseOk` for the browser-open outcome. -/
def handleAdditionalPermissions
    (create : CreateCodespaceParams → Except CreateError Codespace)
    (isInteractive : Bool) (choice : PermChoice) (browseOk : Bool)
    (params : CreateCodespaceParams) :
    Except AppError Codespace × Nat :=
  if !isInteractive then (Except.error AppError.silent, 0)
  else
    match choice with
    | PermChoice.browser =>
      if browseOk then (Except.error AppError.silent, 0)
      else (Except.error (AppError.msg "error opening browser"), 0)
    | PermChoice.continueWithoutPerms =>
      match create { params with permissionsOptOut := true } with
      | Except.ok codespace => (Except.ok codespace, 1)
      | Except.error err =>
        (Except.error (AppError.msg ("error creating codespace: "
          ++ renderCreateError err)), 1)

/-- The creation-submission stage of `Create`
(`pkg/cmd/codespace/create.go`, after the machine stage): submit the
creation; on an `AcceptPermissionsRequiredError` with a nonempty URL run
`handleAdditionalPermissions` (whose error, possibly the silent sentinel,
is returned unwrapped); any other failure is wrapped as a normal error.
Returns the outcome and the total number of `CreateCodespace` calls. -/
def createSubmit (create : CreateCodespaceParams → Except CreateError Codespace)
    (isInteractive : Bool) (choice : PermChoice) (browseOk : Bool)
    (params : CreateCodespaceParams) :
    Except AppError Codespace × Nat :=
  match create params with
  | Except.ok codespace => (Except.ok codespace, 1)
  | Except.error err =>
    match err with
    | CreateError.permissionsRequired url =>
      if url = "" then
        (Except.error (AppError.msg ("error creating codespace: "
          ++ renderCreateError err)), 1)
      else
        let h := handleAdditionalPermissions create isInteractive choice browseOk params
        (h.1, 1 + h.2)
    | CreateError.other msg =>
      (Except.error (AppError.msg ("error creating codespace: "
        ++ renderCreateError (CreateError.other msg))), 1)

/-- A concrete stand-in for `apiClient.CreateCodespace` that demands
additional permissions on the first attempt and fails normally once the
opt-out flag is set; used to exercise the permission-escalation flow. -/
def permDemandingCreate (p : CreateCodespaceParams) : Except CreateError Codespace :=
  if p.permissionsOptOut then Except.error (CreateError.other "boom")
  else Except.error (CreateError.permissionsRequired "https://auth")

/-- `api.Machine`, restricted to the fields read by `getMachineName`
(`pkg/cmd/codespace/create.go`). -/
structure Machine where
  name : String
  displayName : String
  prebuildAvailability : String
deriving DecidableEq, Repr

/-- `buildDisplayName` from `pkg/cmd/codespace/create.go`: decorate the
display name with the prebuild availability. -/
def buildDisplayName (displayName prebuildAvailability : String) : String :=
  if prebuildAvailability = "ready" then displayName ++ " (Prebuild ready)"
  else if prebuildAvailability = "in_progress" then
    displayName ++ " (Prebuild in progress)"
  else displayName

/-- Go's `%v` rendering of a `[]string`, as used in the
no-such-machine error message. -/
def formatStringList (xs : List String) : String :=
  "[" ++ String.intercalate " " xs ++ "]"

/-- The error message of `getMachineName` for a caller-supplied machine
name absent from the availability list; it enumerates the available machine
names. -/
def noSuchMachineMsg (machine : String) (availableMachines : List String) : String :=
  "there is no such machine for the repository: " ++ machine
    ++ "\nAvailable machines: " ++ formatStringList availableMachines

/-- Observable outcome of `getMachineName`: the selected machine name (or
error), whether the survey prompt was shown, and the display-decorated
options it offered. -/
structure MachineStage where
  result : Except String String
  prompted : Bool
  promptOptions : List String
deriving DecidableEq, Repr

/-- `getMachineName` from `pkg/cmd/codespace/create.go`: a caller-supplied
machine must appear in the availability list or the stage fails listing the
alternatives; with none supplied, an empty list yields the empty name (no
error here), a single machine is auto-selected, and otherwise a prompt is
shown over display-decorated names. `choose` stands for the survey answer
(an index into the offered options). -/
def getMachineName (machines : List Machine) (machine : String)
    (choose : List String → Nat) : MachineStage :=
  if machine ≠ "" then
    if machines.any (fun m => machine = m.name) then
      ⟨Except.ok machine, false, []⟩
    else
      ⟨Except.error (noSuchMachineMsg machine (machines.map (fun m => m.name))),
        false, []⟩
  else if machines.length = 0 then
    ⟨Except.ok "", false, []⟩
  else if machines.length = 1 then
    ⟨Except.ok (machines.headD ⟨"", "", ""⟩).name, false, []⟩
  else
    let machineNames := machines.map
      (fun m => buildDisplayName m.displayName m.prebuildAvailability)
    ⟨Except.ok (machines.getD (choose machineNames) ⟨"", "", ""⟩).name,
      true, machineNames⟩

/-- The machine stage of `Create` (`pkg/cmd/codespace/create.go`): a
`getMachineName` failure is wrapped as "error getting machine type"; an
empty machine name means no machine types are available and fails the
operation; otherwise the creation request is submitted. `createCalls`
counts the creation requests issued by this stage and beyond. -/
structure CreateMachineOutcome where
  result : Except String String
  prompted : Bool
  createCalls : Nat
deriving DecidableEq, Repr

/-- The portion of `Create` from the `getMachineName` call to the creation
submission, tracking whether a create request is issued. -/
def createMachineStage (machines : List Machine) (machine : String)
    (choose : List String → Nat) : CreateMachineOutcome :=
  let st := getMachineName machines machine choose
  match st.result with
  | Except.error e =>
    ⟨Except.error ("error getting machine type: " ++ e), st.prompted, 0⟩
  | Except.ok m =>
    if m = "" then
      ⟨Except.error "there are no available machine types for this repository",
        st.prompted, 0⟩
    else ⟨Except.ok m, st.prompted, 1⟩

/-- `DEVCONTAINER_PROMPT_DEFAULT` from `pkg/cmd/codespace/create.go`: the
sentinel prompt option standing for the default configuration. -/
def DEVCONTAINER_PROMPT_DEFAULT : String := "Default Codespaces configuration"

/-- `DEFAULT_DEVCONTAINER_DEFINITIONS` from `pkg/cmd/codespace/create.go`:
the well-known default devcontainer definition paths. -/
def DEFAULT_DEVCONTAINER_DEFINITIONS : List String :=
  [".devcontainer.json", ".devcontainer/devcontainer.json"]

/-- `stringInSlice` from `pkg/cmd/codespace/create.go`. -/
def stringInSlice (a : String) (slice : List String) : Bool :=
  slice.any (fun b => b = a)

/-- `api.DevContainerEntry`, restricted to the path read by `Create`. -/
structure DevContainerEntry where
  path : String
deriving DecidableEq, Repr

/-- Observable outcome of the devcontainer stage of `Create`: the resolved
devcontainer path, whether a prompt was shown, and the options offered. -/
structure DevcontainerStage where
  path : String
  prompted : Bool
  promptOptions : List String
deriving DecidableEq, Repr

/-- The devcontainer stage of `Create` (`pkg/cmd/codespace/create.go`):
skipped when the caller supplied a path; otherwise the listed candidates
drive it — none leaves the path unset, a single candidate at a well-known
default path is auto-selected, and otherwise a prompt is shown whose
options are the sentinel (only when the first candidate is not at a default
path) followed by every discovered path; a chosen sentinel maps back to the
empty path. `choose` stands for the survey answer. -/
def devContainerStage (suppliedPath : String)
    (devcontainers : List DevContainerEntry) (choose : List String → String) :
    DevcontainerStage :=
  if suppliedPath = "" then
    let inner : DevcontainerStage :=
      if devcontainers.length > 0 then
        if devcontainers.length = 1
            && stringInSlice (devcontainers.headD ⟨""⟩).path
              DEFAULT_DEVCONTAINER_DEFINITIONS then
          ⟨(devcontainers.headD ⟨""⟩).path, false, []⟩
        else
          let seed : List String :=
            if !stringInSlice (devcontainers.headD ⟨""⟩).path
                DEFAULT_DEVCONTAINER_DEFINITIONS then
              [DEVCONTAINER_PROMPT_DEFAULT]
            else []
          let promptOptions := seed ++ devcontainers.map (fun d => d.path)
          ⟨choose promptOptions, true, promptOptions⟩
      else ⟨"", false, []⟩
    if inner.path = DEVCONTAINER_PROMPT_DEFAULT then
      ⟨"", inner.prompted, inner.promptOptions⟩
    else inner
  else ⟨suppliedPath, false, []⟩

/-- Whether an `Except` computation succeeded (Go: `err == nil`). -/
def isOkB {ε α : Type} : Except ε α → Bool
  | Except.ok _ => true
  | Except.error _ => false

/-- `deleteOptions` from the codespace delete command: selection flags,
confirmation skipping, age filter, and organization scoping, plus the
interactivity flag the command is constructed with. -/
structure deleteOptions where
  deleteAll : Bool
  skipConfirm : Bool
  codespaceName : String
  repoFilter : String
  keepDays : Nat
  orgName : String
  userName : String
  isInteractive : Bool
deriving DecidableEq, Repr

/-- The flag validation in the delete command's `RunE`, performed before
`App.Delete` (and hence before any network call): `--all` with `--repo` is
rejected, and `--org` with `--codespace` requires `--user`. -/
def newDeleteCmdValidate (opts : deleteOptions) : Except String Unit :=
  if opts.deleteAll && opts.repoFilter ≠ "" then
    Except.error "both `--all` and `--repo` is not supported"
  else if opts.orgName ≠ "" && opts.codespaceName ≠ "" && opts.userName = "" then
    Except.error "using `--org` with `--codespace` requires `--user`"
  else Except.ok ()

/-- The control-plane calls the delete command can make. -/
inductive ApiCall where
  | listCodespaces (orgName userName : String)
  | getCodespace (name : String)
  | getOrgMemberCodespace (orgName userName name : String)
  | deleteCodespace (name : String)
deriving DecidableEq, Repr

/-- The first network call `App.Delete` makes, per its resolution branch:
no explicit name lists the candidate scope; an explicit name fetches that
single record, org/user-scoped when both are supplied. -/
def deleteFirstApiCall (opts : deleteOptions) : ApiCall :=
  if opts.codespaceName = "" then
    ApiCall.listCodespaces opts.orgName opts.userName
  else if opts.orgName = "" || opts.userName = "" then
    ApiCall.getCodespace opts.codespaceName
  else
    ApiCall.getOrgMemberCodespace opts.orgName opts.userName opts.codespaceName

/-- `strings.EqualFold` as used on repository full names: case-insensitive
equality. -/
def equalFold (a b : String) : Bool := a.toLower == b.toLower

/-- `confirmDeletion` from the codespace delete command: a codespace
without unsaved changes is confirmed without a prompt; with unsaved changes,
non-interactive mode fails naming the codespace, and interactive mode asks
the prompter. Returns (confirmed, prompted). `promptAnswer` stands for the
prompter's reply. -/
def confirmDeletion (promptAnswer : String → Bool) (c : Codespace)
    (isInteractive : Bool) : Except String (Bool × Bool) :=
  if !(hasUnsavedChanges c) then Except.ok (true, false)
  else if !isInteractive then
    Except.error ("codespace " ++ c.name
      ++ " has unsaved changes (use --force to override)")
  else Except.ok (promptAnswer c.name, true)

/-- Outcome of the filtering/confirmation loop of `App.Delete`: the
codespaces accepted for deletion, and the names a confirmation prompt was
shown for. -/
structure FilterOutcome where
  survivors : List Codespace
  prompts : List String
deriving DecidableEq, Repr

/-- The filtering and confirmation loop of `App.Delete` (the codespace
delete command): each candidate is dropped unless it matches the name
filter (when set) and, case-insensitively, the repository filter (when
set); with `keepDays > 0` its `lastUsedAt` timestamp is parsed — a parse
failure aborts the whole operation — and candidates used after
`now - keepDays` days are dropped; unless `--force` was given, each
remaining candidate goes through `confirmDeletion`, a declined candidate
being dropped and a confirmation failure aborting the operation. `parse`
stands for `time.Parse(time.RFC3339, ·)` (seconds since epoch), and the
cutoff `now.AddDate(0, 0, -keepDays)` is `now - 86400 * keepDays`. -/
def filterCodespaces (parse : String → Option Int) (promptAnswer : String → Bool)
    (now : Int) (opts : deleteOptions) (nameFilter : String) :
    List Codespace → Except String FilterOutcome
  | [] => Except.ok ⟨[], []⟩
  | c :: rest =>
    if nameFilter != "" && c.name != nameFilter then
      filterCodespaces parse promptAnswer now opts nameFilter rest
    else if opts.repoFilter != ""
        && !(equalFold c.repositoryFullName opts.repoFilter) then
      filterCodespaces parse promptAnswer now opts nameFilter rest
    else
      let ageCheck : Except String Bool :=
        if 0 < opts.keepDays then
          match parse c.lastUsedAt with
          | none =>
            Except.error ("error parsing last_used_at timestamp " ++ c.lastUsedAt)
          | some t =>
            Except.ok (decide (now - 86400 * (opts.keepDays : Int) < t))
        else Except.ok false
      match ageCheck with
      | Except.error e => Except.error e
      | Except.ok true => filterCodespaces parse promptAnswer now opts nameFilter rest
      | Except.ok false =>
        if !opts.skipConfirm then
          match confirmDeletion promptAnswer c opts.isInteractive with
          | Except.error e => Except.error ("unable to confirm: " ++ e)
          | Except.ok confirmed =>
            match filterCodespaces parse promptAnswer now opts nameFilter rest with
            | Except.error e => Except.error e
            | Except.ok out =>
              let out1 : FilterOutcome :=
                if confirmed.2 then ⟨out.survivors, c.name :: out.prompts⟩ else out
              if confirmed.1 then Except.ok ⟨c :: out1.survivors, out1.prompts⟩
              else Except.ok out1
        else
          match filterCodespaces parse promptAnswer now opts nameFilter rest with
          | Except.error e => Except.error e
          | Except.ok out => Except.ok ⟨c :: out.survivors, out.prompts⟩

/-- The name predicate of the delete filter: no name filter, or an exact
name match. -/
def nameOk (nameFilter : String) (c : Codespace) : Bool :=
  nameFilter == "" || c.name == nameFilter

/-- The repository predicate of the delete filter: no repository filter, or
a case-insensitive full-name match. -/
def repoOk (opts : deleteOptions) (c : Codespace) : Bool :=
  opts.repoFilter == "" || equalFold c.repositoryFullName opts.repoFilter

/-- The age predicate of the delete filter: no age filter, or a parseable
`lastUsedAt` of at most `now - keepDays` days. -/
def ageOk (parse : String → Option Int) (now : Int) (opts : deleteOptions)
    (c : Codespace) : Bool :=
  opts.keepDays == 0 ||
    (match parse c.lastUsedAt with
     | some t => decide (t ≤ now - 86400 * (opts.keepDays : Int))
     | none => false)

/-- The conjunction of the delete filter's individual predicates. -/
def survivesFilters (parse : String → Option Int) (now : Int)
    (opts : deleteOptions) (nameFilter : String) (c : Codespace) : Bool :=
  nameOk nameFilter c && repoOk opts c && ageOk parse now opts c

/-- The per-item log line of the delete fan-out (`errLogger.Printf` with
`error deleting codespace %q: %v`). -/
def deleteErrMsg (name err : String) : String :=
  "error deleting codespace " ++ name ++ ": " ++ err

/-- The delete fan-out of `App.Delete`: one task per accepted codespace,
each calling `DeleteCodespace` and logging its own failure; `errgroup.Group`
joins all tasks, so every item's call completes regardless of sibling
failures. `outcome` stands for the per-name result of `DeleteCodespace`;
`runDeletes` collects the log lines the tasks emit. -/
def runDeletes (outcome : String → Except String Unit) (names : List String) :
    List String :=
  names.filterMap fun n =>
    match outcome n with
    | Except.ok _ => none
    | Except.error e => some (deleteErrMsg n e)

/-- The names whose `DeleteCodespace` call succeeded — their deletions
remain in place whatever happened to siblings. -/
def deletedNames (outcome : String → Except String Unit) (names : List String) :
    List String :=
  names.filter fun n => isOkB (outcome n)

/-- The aggregate result of the fan-out: `g.Wait()` yields an error exactly
when some task failed, which `App.Delete` replaces with the non-itemized
"some codespaces failed to delete". -/
def deleteAggregate (outcome : String → Except String Unit) (names : List String) :
    Except String Unit :=
  if names.any (fun n => !(isOkB (outcome n))) then
    Except.error "some codespaces failed to delete"
  else Except.ok ()

/-- `App.Delete` from the filtering loop onward: filter and confirm the
candidates, fail with the distinct "no codespaces to delete" error when
nothing survived, and otherwise run the concurrent fan-out. Returns the
overall result and the per-item failure log. -/
def DeleteAfterResolve (parse : String → Option Int) (promptAnswer : String → Bool)
    (now : Int) (opts : deleteOptions) (nameFilter : String)
    (css : List Codespace) (outcome : String → Except String Unit) :
    Except String Unit × List String :=
  match filterCodespaces parse promptAnswer now opts nameFilter css with
  | Except.error e => (Except.error e, [])
  | Except.ok out =>
    if out.survivors.length = 0 then (Except.error "no codespaces to delete", [])
    else (deleteAggregate outcome (out.survivors.map (fun c => c.name)),
      runDeletes outcome (out.survivors.map (fun c => c.name)))

/-- The RFC3339 parse function of the C6 scenario: a 45-day-old timestamp,
a 10-day-old timestamp (relative to `now = 0`, in seconds), and everything
else unparseable. -/
def scenarioParse : String → Option Int := fun s =>
  if s = "t45" then some (-3888000)
  else if s = "t10" then some (-864000)
  else none

/-- The 45-day-old, clean candidate of the C6 scenario. -/
def cs45 : Codespace :=
  ⟨"cs45", "", "t45", "Available", false, "", "o/r", ⟨"main", false, false⟩⟩

/-- The 10-day-old candidate of the C6 scenario. -/
def cs10 : Codespace :=
  ⟨"cs10", "", "t10", "Available", false, "", "o/r", ⟨"main", false, false⟩⟩

/-- A candidate with an unparseable `lastUsedAt` timestamp. -/
def csBad : Codespace :=
  ⟨"csBad", "", "garbage", "Available", false, "", "o/r", ⟨"main", false, false⟩⟩

/-- `gh codespace delete --days 30`, interactive, without `--force`. -/
def scenarioOpts : deleteOptions := ⟨false, false, "", "", 30, "", "", true⟩

/-- `gh codespace delete --days 30 --force`. -/
def forceOpts : deleteOptions := ⟨false, true, "", "", 30, "", "", true⟩

/-- A concrete per-name delete outcome where `a` succeeds and `b`, `c`
fail. -/
def failTwoOutcome : String → Except String Unit := fun n =>
  if n = "a" then Except.ok ()
  else if n = "b" then Except.error "rate limited"
  else Except.error "not found"

theorem pollPass_finished_absorbed (n : String) (l : PostCreateState)
    (finished : List String) (ss : List PostCreateState) (h : n ∈ finished) :
    n ∈ (pollPass l finished ss).finishedStates ∧
      n ∉ (pollPass l finished ss).reports := by
  induction ss generalizing l finished with
  | nil => simpa [pollPass] using h
  | cons s rest ih =>
    by_cases h1 : s.name ∈ finished
    · simpa [pollPass, h1] using ih l finished h
    · have hne : n ≠ s.name := fun he => h1 (he ▸ h)
      by_cases h2 : s.name ≠ l.name
      · by_cases h3 : s.status = PostCreateStateRunning
        · simp [pollPass, h1, h2, h3, h, hne]
        · have := ih l (s.name :: finished) (List.mem_cons_of_mem _ h)
          simp only [pollPass, if_neg h1, if_pos h2, if_neg h3]
          exact ⟨this.1, by simpa [hne] using this.2⟩
      · by_cases h3 : s.status = PostCreateStateRunning
        · simp [pollPass, h1, h2, h3, h]
        · simpa [pollPass, h1, h2, h3] using
            ih ⟨"", ""⟩ (s.name :: finished) (List.mem_cons_of_mem _ h)

theorem pollerStep_finishedStates (st : PollerState) (pass : List PostCreateState) :
    ((pollerStep st pass).1).finishedStates =
      (pollPass st.lastState st.finishedStates pass).finishedStates := by
  unfold pollerStep
  split <;> simp <;> split <;> simp

/-- **C1** (amended). A task name placed in the finished-set stays in the
finished-set forever and is never reported again in any later poll pass.
(The unamended claim — that the poller never reports any task name twice —
fails: a running task that disappears from a pass and reappears later is
reported again; see the counterexample.) -/
theorem c1_finished_never_rereported (st : PollerState)
    (passes : List (List PostCreateState)) (n : String)
    (h : n ∈ st.finishedStates) :
    n ∈ (runPoller st passes).1.finishedStates ∧
      n ∉ (runPoller st passes).2 := by
  induction passes generalizing st with
  | nil => simpa [runPoller] using h
  | cons pass rest ih =>
    by_cases hs : st.stopped
    · simpa [runPoller, hs] using h
    · have hpass := pollPass_finished_absorbed n st.lastState st.finishedStates pass h
      have hmem : n ∈ ((pollerStep st pass).1).finishedStates := by
        rw [pollerStep_finishedStates]; exact hpass.1
      have hrec := ih (pollerStep st pass).1 hmem
      have hrep : n ∉ (pollerStep st pass).2 := by
        simpa [pollerStep] using hpass.2
      refine ⟨?_, ?_⟩
      · simpa [runPoller, hs] using hrec.1
      · simp only [runPoller, if_neg hs, List.mem_append]
        exact fun hc => hc.elim hrep hrec.2

/-- **C1** witness: a name already finished ("A") is neither reported nor
dropped from the finished-set when the remote republishes it. -/
theorem c1_finished_never_rereported_witness :
    "A" ∈ (⟨⟨"", ""⟩, false, ["A"], false⟩ : PollerState).finishedStates ∧
      ("A" ∈ (runPoller ⟨⟨"", ""⟩, false, ["A"], false⟩
          [[⟨"A", "running"⟩], [⟨"A", "success"⟩]]).1.finishedStates ∧
        "A" ∉ (runPoller ⟨⟨"", ""⟩, false, ["A"], false⟩
          [[⟨"A", "running"⟩], [⟨"A", "success"⟩]]).2) :=
  ⟨by decide,
    c1_finished_never_rereported ⟨⟨"", ""⟩, false, ["A"], false⟩
      [[⟨"A", "running"⟩], [⟨"A", "success"⟩]] "A" (by decide)⟩

/-- **C1** counterexample: with passes `[X running]`, `[Y running]`,
`[X running]` the poller reports `X`, then `Y`, then `X` again — the same
task name is reported twice, refuting the claim's universally quantified
"never reports the same task name twice". -/
theorem c1_counterexample :
    (runPoller initPollerState
        [[⟨"X", "running"⟩], [⟨"Y", "running"⟩], [⟨"X", "running"⟩]]).2
        = ["X", "Y", "X"] ∧
      ¬ (runPoller initPollerState
        [[⟨"X", "running"⟩], [⟨"Y", "running"⟩], [⟨"X", "running"⟩]]).2.Nodup := by
  constructor
  · decide
  · decide

/-- **C2** (amended). While polling is active: a pass with an in-progress
task never stops the poller and leaves the stop-after-next-empty-pass flag
exactly as it was (it is *not* disarmed); a pass with no task in progress
arms the flag when it was unarmed, and stops the poller when it was already
armed — empty passes need not be consecutive — and that stop is reported as
success by `showStatus`. -/
theorem c2_debounced_termination (st : PollerState) (pass : List PostCreateState)
    (h : st.stopped = false) :
    ((pollPass st.lastState st.finishedStates pass).inProgress = true →
        (pollerStep st pass).1.stopped = false ∧
          (pollerStep st pass).1.breakNextState = st.breakNextState) ∧
      ((pollPass st.lastState st.finishedStates pass).inProgress = false →
          st.breakNextState = false →
        (pollerStep st pass).1.stopped = false ∧
          (pollerStep st pass).1.breakNextState = true) ∧
      ((pollPass st.lastState st.finishedStates pass).inProgress = false →
          st.breakNextState = true →
        (pollerStep st pass).1.stopped = true ∧
          showStatusResult (pollerStep st pass).1 = Except.ok ()) := by
  refine ⟨fun hp => ?_, fun hp hb => ?_, fun hp hb => ?_⟩
  · simp [pollerStep, hp, h]
  · simp [pollerStep, hp, hb, h]
  · simp [pollerStep, showStatusResult, hp, hb]

/-- **C2** witness: from an active, already-armed state, an empty pass stops
the poller with success; from an active, unarmed state, an empty pass only
arms the flag. -/
theorem c2_debounced_termination_witness :
    (⟨⟨"", ""⟩, true, [], false⟩ : PollerState).stopped = false ∧
      (pollPass (⟨"", ""⟩ : PostCreateState) [] ([] : List PostCreateState)).inProgress = false ∧
      (⟨⟨"", ""⟩, true, [], false⟩ : PollerState).breakNextState = true ∧
      ((pollerStep ⟨⟨"", ""⟩, true, [], false⟩ []).1.stopped = true ∧
        showStatusResult (pollerStep ⟨⟨"", ""⟩, true, [], false⟩ []).1 = Except.ok ()) :=
  ⟨by decide, by decide, by decide,
    (c2_debounced_termination ⟨⟨"", ""⟩, true, [], false⟩ [] (by decide)).2.2
      (by decide) (by decide)⟩

/-- **C2** counterexample: passes `[]`, `[X running]`, `[]` stop the poller
even though the two empty-progress passes are not consecutive (the middle
pass has a task in progress), refuting the claim that the flag is disarmed
when a new in-progress task appears between the two empty passes. -/
theorem c2_counterexample :
    (pollPass ((pollerStep initPollerState []).1).lastState
        ((pollerStep initPollerState []).1).finishedStates
        [⟨"X", "running"⟩]).inProgress = true ∧
      (runPoller initPollerState [[], [⟨"X", "running"⟩], []]).1.stopped = true := by
  constructor
  · decide
  · decide

/-- **C4**. A codespace record with a pending operation makes `Rebuild` fail
with an error carrying the record's pending-operation reason string, with no
Live Share session opened and no rebuild issued. -/
theorem c4_pending_operation_blocks_rebuild (c : Codespace)
    (sessionResult rebuildResult : Except String Unit)
    (h : c.pendingOperation = true) :
    Rebuild (Except.ok c) sessionResult rebuildResult =
      ⟨false, false, [],
        Except.error ("codespace is disabled while it has a pending operation: "
          ++ c.pendingOperationDisabledReason)⟩ := by
  simp [Rebuild, getOrChooseCodespace, h]

/-- **C4** witness: a concrete pending-operation codespace is rejected with
its reason, opening no session and issuing no rebuild. -/
theorem c4_pending_operation_blocks_rebuild_witness :
    (⟨"cs1", "", "", "Available", true, "Some pending operation", "o/r",
        ⟨"main", false, false⟩⟩ : Codespace).pendingOperation = true ∧
      Rebuild (Except.ok ⟨"cs1", "", "", "Available", true,
          "Some pending operation", "o/r", ⟨"main", false, false⟩⟩)
          (Except.ok ()) (Except.ok ()) =
        ⟨false, false, [],
          Except.error ("codespace is disabled while it has a pending operation: "
            ++ "Some pending operation")⟩ :=
  ⟨by decide,
    c4_pending_operation_blocks_rebuild
      ⟨"cs1", "", "", "Available", true, "Some pending operation", "o/r",
        ⟨"main", false, false⟩⟩ (Except.ok ()) (Except.ok ()) (by decide)⟩

/-- **C10** (amended). A codespace that passes the pending-operation gate
(pending-operation = false) and whose lifecycle state is already
`Rebuilding` makes `Rebuild` return success immediately, printing that it is
already rebuilding, with no Live Share session opened and no rebuild
issued. (Unamended, the claim fails: a codespace that is both `Rebuilding`
and pending-operation is rejected with an error instead; see the
counterexample.) -/
theorem c10_already_rebuilding (c : Codespace)
    (sessionResult rebuildResult : Except String Unit)
    (hp : c.pendingOperation = false) (hs : c.state = CodespaceStateRebuilding) :
    Rebuild (Except.ok c) sessionResult rebuildResult =
      ⟨false, false, [c.name ++ " is already rebuilding"], Except.ok ()⟩ := by
  simp [Rebuild, getOrChooseCodespace, hp, hs]

/-- **C10** witness: a concrete non-pending codespace in the `Rebuilding`
state yields immediate success with no session and no rebuild request. -/
theorem c10_already_rebuilding_witness :
    (⟨"cs2", "", "", "Rebuilding", false, "", "o/r",
        ⟨"main", false, false⟩⟩ : Codespace).pendingOperation = false ∧
      (⟨"cs2", "", "", "Rebuilding", false, "", "o/r",
        ⟨"main", false, false⟩⟩ : Codespace).state = CodespaceStateRebuilding ∧
      Rebuild (Except.ok ⟨"cs2", "", "", "Rebuilding", false, "", "o/r",
          ⟨"main", false, false⟩⟩) (Except.ok ()) (Except.ok ()) =
        ⟨false, false, ["cs2 is already rebuilding"], Except.ok ()⟩ :=
  ⟨by decide, by decide,
    c10_already_rebuilding
      ⟨"cs2", "", "", "Rebuilding", false, "", "o/r", ⟨"main", false, false⟩⟩
      (Except.ok ()) (Except.ok ()) (by decide) (by decide)⟩

/-- **C10** counterexample: a codespace whose state is `Rebuilding` but
which also has a pending operation is *not* an immediate success — `Rebuild`
returns the pending-operation error, refuting the claim for "every codespace
whose lifecycle state is already Rebuilding". -/
theorem c10_counterexample :
    (⟨"cs3", "", "", "Rebuilding", true, "op", "o/r",
        ⟨"main", false, false⟩⟩ : Codespace).state = CodespaceStateRebuilding ∧
      (Rebuild (Except.ok ⟨"cs3", "", "", "Rebuilding", true, "op", "o/r",
          ⟨"main", false, false⟩⟩) (Except.ok ()) (Except.ok ())).result =
        Except.error "codespace is disabled while it has a pending operation: op" := by
  constructor
  · decide
  · decide

/-- **C5**. When the first creation fails with a permissions-required signal
carrying a nonempty authorization URL: non-interactively, `Create` fails
with the silent sentinel after exactly one creation request; interactively,
choosing to continue without the extra permissions retries exactly once
with `permissionsOptOut` flipped to true, a failure of that retry
propagating as a normal (non-silent) message error and a success being
returned; in every mode at most two creation requests are submitted. -/
theorem c5_permission_escalation
    (create : CreateCodespaceParams → Except CreateError Codespace)
    (params : CreateCodespaceParams) (url : String)
    (choice : PermChoice) (browseOk : Bool)
    (hfirst : create params = Except.error (CreateError.permissionsRequired url))
    (hurl : url ≠ "") :
    (createSubmit create false choice browseOk params =
        (Except.error AppError.silent, 1)) ∧
      ((createSubmit create true PermChoice.continueWithoutPerms browseOk params).2 = 2 ∧
        (∀ e, create { params with permissionsOptOut := true } = Except.error e →
          (createSubmit create true PermChoice.continueWithoutPerms browseOk params).1 =
            Except.error (AppError.msg ("error creating codespace: "
              ++ renderCreateError e))) ∧
        (∀ c, create { params with permissionsOptOut := true } = Except.ok c →
          (createSubmit create true PermChoice.continueWithoutPerms browseOk params).1 =
            Except.ok c)) ∧
      (∀ i ch, (createSubmit create i ch browseOk params).2 ≤ 2) := by
  refine ⟨?_, ⟨?_, fun e he => ?_, fun c hc => ?_⟩, fun i ch => ?_⟩
  · simp [createSubmit, hfirst, hurl, handleAdditionalPermissions]
  · simp only [createSubmit, hfirst, if_neg hurl, handleAdditionalPermissions,
      Bool.not_true, Bool.false_eq_true, if_false]
    cases hr : create { params with permissionsOptOut := true } <;> simp [hr]
  · simp [createSubmit, hfirst, hurl, handleAdditionalPermissions, he]
  · simp [createSubmit, hfirst, hurl, handleAdditionalPermissions, hc]
  · simp only [createSubmit, hfirst, if_neg hurl]
    cases i
    · simp [handleAdditionalPermissions]
    · cases ch
      · cases browseOk <;> simp [handleAdditionalPermissions]
      · simp only [handleAdditionalPermissions, Bool.not_true, Bool.false_eq_true,
          if_false]
        cases hr : create { params with permissionsOptOut := true } <;> simp

/-- **C5** witness: a concrete create function that demands permissions on
the first attempt and fails normally on the opt-out retry exhibits the
silent non-interactive failure after one call and, interactively, the
two-call retry whose failure is a normal message error. -/
theorem c5_permission_escalation_witness :
    (permDemandingCreate ⟨1, "main", "m1", "", "", 0, false⟩ =
        Except.error (CreateError.permissionsRequired "https://auth")) ∧
      ("https://auth" : String) ≠ "" ∧
      (createSubmit permDemandingCreate
          false PermChoice.browser true ⟨1, "main", "m1", "", "", 0, false⟩ =
        (Except.error AppError.silent, 1)) ∧
      ((createSubmit permDemandingCreate
          true PermChoice.continueWithoutPerms true
          ⟨1, "main", "m1", "", "", 0, false⟩).2 = 2 ∧
        (createSubmit permDemandingCreate
          true PermChoice.continueWithoutPerms true
          ⟨1, "main", "m1", "", "", 0, false⟩).1 =
          Except.error (AppError.msg "error creating codespace: boom")) := by
  have h := c5_permission_escalation permDemandingCreate
    ⟨1, "main", "m1", "", "", 0, false⟩ "https://auth"
    PermChoice.browser true (by decide) (by decide)
  refine ⟨by decide, by decide, h.1, h.2.1.1, ?_⟩
  have := h.2.1.2.1 (CreateError.other "boom") (by decide)
  simpa [renderCreateError] using this

/-- **C8**. A caller-supplied machine name absent from the availability
list fails the operation with the error enumerating the available machine
names, issuing no create request; with no machine supplied, zero available
machines fail the whole operation without a create request, and exactly one
available machine is auto-selected without prompting (the create request
then proceeding). -/
theorem c8_machine_stage (machines : List Machine) (machine : String)
    (choose : List String → Nat) :
    (machine ≠ "" → (∀ m ∈ machines, machine ≠ m.name) →
        createMachineStage machines machine choose =
          ⟨Except.error ("error getting machine type: "
              ++ noSuchMachineMsg machine (machines.map (fun m => m.name))),
            false, 0⟩) ∧
      (machine = "" → machines = [] →
        createMachineStage machines machine choose =
          ⟨Except.error "there are no available machine types for this repository",
            false, 0⟩) ∧
      (∀ m0, machine = "" → machines = [m0] → m0.name ≠ "" →
        createMachineStage machines machine choose = ⟨Except.ok m0.name, false, 1⟩) := by
  refine ⟨fun hm hnot => ?_, fun hm hz => ?_, fun m0 hm hone hn => ?_⟩
  · have hany : machines.any (fun m => machine = m.name) = false := by
      simp only [List.any_eq_false, decide_eq_true_eq]
      exact hnot
    simp [createMachineStage, getMachineName, hm, hany]
  · subst hz
    simp [createMachineStage, getMachineName, hm]
  · subst hone
    simp [createMachineStage, getMachineName, hm, hn]

/-- **C8** witness: requesting machine "xl" when only "basic" and "large"
are available fails listing them with no create request; an empty list
fails with the no-machine-types error; the single machine "basic" is
auto-selected without a prompt and the create request proceeds. -/
theorem c8_machine_stage_witness :
    (createMachineStage [⟨"basic", "Basic", "none"⟩, ⟨"large", "Large", "ready"⟩]
        "xl" (fun _ => 0) =
        ⟨Except.error ("error getting machine type: "
            ++ "there is no such machine for the repository: xl\nAvailable machines: [basic large]"),
          false, 0⟩) ∧
      (createMachineStage [] "" (fun _ => 0) =
        ⟨Except.error "there are no available machine types for this repository",
          false, 0⟩) ∧
      (createMachineStage [⟨"basic", "Basic", "none"⟩] "" (fun _ => 0) =
        ⟨Except.ok "basic", false, 1⟩) := by
  refine ⟨?_, ?_, ?_⟩
  · have h := (c8_machine_stage
      [⟨"basic", "Basic", "none"⟩, ⟨"large", "Large", "ready"⟩] "xl"
      (fun _ => 0)).1 (by decide) (by decide)
    simpa [noSuchMachineMsg, formatStringList] using h
  · exact (c8_machine_stage [] "" (fun _ => 0)).2.1 rfl rfl
  · exact (c8_machine_stage [⟨"basic", "Basic", "none"⟩] "" (fun _ => 0)).2.2
      ⟨"basic", "Basic", "none"⟩ rfl rfl (by decide)

/-- **C9** (amended). With no caller-supplied path: zero candidates leave
the path unset without a prompt; a single candidate at a well-known default
path is auto-selected without a prompt; otherwise a prompt is issued whose
options are the sentinel default-configuration entry — offered only when
the *first* discovered candidate is not at a well-known default path —
followed by each discovered path, and a chosen sentinel maps back to the
empty path. (Unamended, the claim fails: when the first of several
candidates is at a default path the sentinel is not offered; see the
counterexample.) -/
theorem c9_devcontainer_stage (devcontainers : List DevContainerEntry)
    (choose : List String → String) :
    (devcontainers = [] →
        devContainerStage "" devcontainers choose = ⟨"", false, []⟩) ∧
      (∀ d, devcontainers = [d] →
          stringInSlice d.path DEFAULT_DEVCONTAINER_DEFINITIONS = true →
          d.path ≠ DEVCONTAINER_PROMPT_DEFAULT →
        devContainerStage "" devcontainers choose = ⟨d.path, false, []⟩) ∧
      (devcontainers.length > 0 →
        (devcontainers.length = 1
            && stringInSlice (devcontainers.headD ⟨""⟩).path
              DEFAULT_DEVCONTAINER_DEFINITIONS) = false →
        ((devContainerStage "" devcontainers choose).prompted = true ∧
          (devContainerStage "" devcontainers choose).promptOptions =
            (if stringInSlice (devcontainers.headD ⟨""⟩).path
                DEFAULT_DEVCONTAINER_DEFINITIONS then [] else [DEVCONTAINER_PROMPT_DEFAULT])
              ++ devcontainers.map (fun d => d.path) ∧
          (choose ((if stringInSlice (devcontainers.headD ⟨""⟩).path
                DEFAULT_DEVCONTAINER_DEFINITIONS then [] else [DEVCONTAINER_PROMPT_DEFAULT])
              ++ devcontainers.map (fun d => d.path)) = DEVCONTAINER_PROMPT_DEFAULT →
            (devContainerStage "" devcontainers choose).path = ""))) := by
  refine ⟨fun hz => ?_, fun d hone hdef hne => ?_, fun hpos hnot => ?_⟩
  · subst hz
    simp [devContainerStage]
  · subst hone
    simp [devContainerStage, hdef, hne]
  · have hlen : devcontainers.length > 0 := hpos
    refine ⟨?_, ?_, fun hc => ?_⟩ <;>
      by_cases hsent : choose ((if stringInSlice (devcontainers.headD ⟨""⟩).path
            DEFAULT_DEVCONTAINER_DEFINITIONS then [] else [DEVCONTAINER_PROMPT_DEFAULT])
          ++ devcontainers.map (fun d => d.path)) = DEVCONTAINER_PROMPT_DEFAULT <;>
        cases hin : stringInSlice (devcontainers.headD ⟨""⟩).path
            DEFAULT_DEVCONTAINER_DEFINITIONS <;>
      simp_all [devContainerStage, Nat.pos_iff_ne_zero]

/-- **C9** witness: candidates `custom.json` and `other.json` (first not at
a default path) prompt with the sentinel followed by both paths, and
choosing the sentinel yields the empty path; the single default candidate
`.devcontainer.json` is auto-selected without a prompt; zero candidates
leave the path unset. -/
theorem c9_devcontainer_stage_witness :
    (devContainerStage "" [] (fun _ => "") = ⟨"", false, []⟩) ∧
      (devContainerStage "" [⟨".devcontainer.json"⟩] (fun _ => "") =
        ⟨".devcontainer.json", false, []⟩) ∧
      ((devContainerStage "" [⟨"custom.json"⟩, ⟨"other.json"⟩]
          (fun opts => opts.headD "")).prompted = true ∧
        (devContainerStage "" [⟨"custom.json"⟩, ⟨"other.json"⟩]
          (fun opts => opts.headD "")).promptOptions =
          [DEVCONTAINER_PROMPT_DEFAULT, "custom.json", "other.json"] ∧
        (devContainerStage "" [⟨"custom.json"⟩, ⟨"other.json"⟩]
          (fun opts => opts.headD "")).path = "") := by
  refine ⟨?_, ?_, ?_⟩
  · exact (c9_devcontainer_stage [] (fun _ => "")).1 rfl
  · exact (c9_devcontainer_stage [⟨".devcontainer.json"⟩] (fun _ => "")).2.1
      ⟨".devcontainer.json"⟩ rfl (by decide) (by decide)
  · have h := (c9_devcontainer_stage [⟨"custom.json"⟩, ⟨"other.json"⟩]
      (fun opts => opts.headD "")).2.2 (by decide) (by decide)
    refine ⟨h.1, by simpa [DEVCONTAINER_PROMPT_DEFAULT] using h.2.1, ?_⟩
    exact h.2.2 (by decide)

/-- **C9** counterexample: with candidates `.devcontainer.json` (a
well-known default path) and `custom/devcontainer.json`, a prompt is issued
but its options do *not* include the sentinel default-configuration entry,
refuting the claim that every prompt offers the sentinel plus each
discovered path. -/
theorem c9_counterexample :
    (devContainerStage "" [⟨".devcontainer.json"⟩, ⟨"custom/devcontainer.json"⟩]
        (fun opts => opts.headD "")).prompted = true ∧
      (devContainerStage "" [⟨".devcontainer.json"⟩, ⟨"custom/devcontainer.json"⟩]
        (fun opts => opts.headD "")).promptOptions =
        [".devcontainer.json", "custom/devcontainer.json"] ∧
      DEVCONTAINER_PROMPT_DEFAULT ∉
        (devContainerStage "" [⟨".devcontainer.json"⟩, ⟨"custom/devcontainer.json"⟩]
          (fun opts => opts.headD "")).promptOptions := by
  refine ⟨?_, ?_, ?_⟩
  · decide
  · decide
  · decide

/-- **C7** (amended). The delete command's pre-network usage validation
rejects exactly two combinations — `--all` with `--repo`, and `--org` with
`--codespace` without `--user`. An explicit codespace name combined with a
repository or age filter is *not* a usage error: it is accepted and the
command proceeds to fetch the named codespace. (Unamended, the claim fails;
see the counterexample.) -/
theorem c7_usage_validation (opts : deleteOptions) :
    (isOkB (newDeleteCmdValidate opts) = false ↔
        (opts.deleteAll = true ∧ opts.repoFilter ≠ "") ∨
          (opts.orgName ≠ "" ∧ opts.codespaceName ≠ "" ∧ opts.userName = "")) ∧
      (opts.codespaceName ≠ "" →
        (deleteFirstApiCall opts = ApiCall.getCodespace opts.codespaceName ∨
          deleteFirstApiCall opts =
            ApiCall.getOrgMemberCodespace opts.orgName opts.userName
              opts.codespaceName)) := by
  constructor
  · unfold newDeleteCmdValidate
    split_ifs with h1 h2
    · simp only [isOkB, true_iff]
      refine Or.inl ?_
      simpa [Bool.and_eq_true, decide_eq_true_eq] using h1
    · simp only [isOkB, true_iff]
      refine Or.inr ?_
      have h2' := h2
      simp only [Bool.and_eq_true, decide_eq_true_eq] at h2'
      exact ⟨h2'.1.1, h2'.1.2, h2'.2⟩
    · simp only [isOkB, Bool.true_eq_false, false_iff]
      rintro (⟨ha, hr⟩ | ⟨ho, hc, hu⟩)
      · exact h1 (by simp [ha, hr])
      · exact h2 (by simp [ho, hc, hu])
  · intro hc
    unfold deleteFirstApiCall
    simp only [if_neg hc]
    by_cases h : (opts.orgName = "" || opts.userName = "") = true
    · exact Or.inl (by simp [h])
    · exact Or.inr (by simp [h])

/-- **C7** witness: the usage check at a concrete conflicting option set
(`--all` with `--repo`) is a failure, and at an explicit name with a repo
filter it is accepted, the fetch of the named codespace following. -/
theorem c7_usage_validation_witness :
    (isOkB (newDeleteCmdValidate ⟨true, false, "", "r/r", 0, "", "", true⟩) = false ↔
        ((true : Bool) = true ∧ ("r/r" : String) ≠ "") ∨
          (("" : String) ≠ "" ∧ ("" : String) ≠ "" ∧ ("" : String) = "")) ∧
      (("x" : String) ≠ "" →
        (deleteFirstApiCall ⟨false, false, "x", "r/r", 30, "", "", true⟩ =
            ApiCall.getCodespace "x" ∨
          deleteFirstApiCall ⟨false, false, "x", "r/r", 30, "", "", true⟩ =
            ApiCall.getOrgMemberCodespace "" "" "x")) :=
  ⟨(c7_usage_validation ⟨true, false, "", "r/r", 0, "", "", true⟩).1,
    (c7_usage_validation ⟨false, false, "x", "r/r", 30, "", "", true⟩).2⟩

/-- **C7** counterexample: an explicit codespace name combined with a
repository filter and an age filter passes the usage validation (no usage
error) and the command proceeds to a network call fetching the named
codespace — refuting the claim that such a combination is rejected before
any network call. -/
theorem c7_counterexample :
    newDeleteCmdValidate ⟨false, false, "my-codespace", "owner/repo", 30, "", "", true⟩ =
        Except.ok () ∧
      deleteFirstApiCall ⟨false, false, "my-codespace", "owner/repo", 30, "", "", true⟩ =
        ApiCall.getCodespace "my-codespace" := by
  constructor
  · decide
  · decide

theorem skipName_eq (nameFilter : String) (c : Codespace) :
    (nameFilter != "" && c.name != nameFilter) = !(nameOk nameFilter c) := by
  cases h1 : nameFilter == "" <;> cases h2 : c.name == nameFilter <;>
    simp [nameOk, bne, h1, h2]

theorem skipRepo_eq (opts : deleteOptions) (c : Codespace) :
    (opts.repoFilter != "" && !(equalFold c.repositoryFullName opts.repoFilter))
      = !(repoOk opts c) := by
  cases h1 : opts.repoFilter == "" <;>
    cases h2 : equalFold c.repositoryFullName opts.repoFilter <;>
    simp [repoOk, bne, h1, h2]

theorem filterCodespaces_intersection (parse : String → Option Int)
    (promptAnswer : String → Bool) (now : Int) (opts : deleteOptions)
    (nameFilter : String) (css : List Codespace)
    (h1 : ∀ c ∈ css, nameOk nameFilter c = true → repoOk opts c = true →
      0 < opts.keepDays → (parse c.lastUsedAt).isSome = true)
    (h2 : ∀ c ∈ css, survivesFilters parse now opts nameFilter c = true →
      opts.skipConfirm = true ∨ hasUnsavedChanges c = false) :
    filterCodespaces parse promptAnswer now opts nameFilter css =
      Except.ok ⟨css.filter (survivesFilters parse now opts nameFilter), []⟩ := by
  induction css with
  | nil => simp [filterCodespaces]
  | cons c rest ih =>
    have hrest := ih (fun d hd => h1 d (List.mem_cons_of_mem _ hd))
      (fun d hd => h2 d (List.mem_cons_of_mem _ hd))
    cases hn : nameOk nameFilter c with
    | false =>
      have hskip : (nameFilter != "" && c.name != nameFilter) = true := by
        rw [skipName_eq, hn]; rfl
      have hsf : survivesFilters parse now opts nameFilter c = false := by
        simp [survivesFilters, hn]
      simp [filterCodespaces, hskip, hrest, List.filter_cons, hsf]
    | true =>
      have hskipn : (nameFilter != "" && c.name != nameFilter) = false := by
        rw [skipName_eq, hn]; rfl
      cases hr : repoOk opts c with
      | false =>
        have hskip : (opts.repoFilter != ""
            && !(equalFold c.repositoryFullName opts.repoFilter)) = true := by
          rw [skipRepo_eq, hr]; rfl
        have hsf : survivesFilters parse now opts nameFilter c = false := by
          simp [survivesFilters, hr]
        simp [filterCodespaces, hskipn, hskip, hrest, List.filter_cons, hsf]
      | true =>
        have hskipr : (opts.repoFilter != ""
            && !(equalFold c.repositoryFullName opts.repoFilter)) = false := by
          rw [skipRepo_eq, hr]; rfl
        rcases Nat.eq_zero_or_pos opts.keepDays with hk0 | hk
        · have hage : ageOk parse now opts c = true := by simp [ageOk, hk0]
          have hsf : survivesFilters parse now opts nameFilter c = true := by
            simp [survivesFilters, hn, hr, hage]
          have hnl : ¬ 0 < opts.keepDays := by omega
          rcases h2 c (List.mem_cons_self _ _) hsf with hforce | hclean
          · simp [filterCodespaces, hskipn, hskipr, hnl, hforce, hrest,
              List.filter_cons, hsf]
          · cases hforce : opts.skipConfirm with
            | true =>
              simp [filterCodespaces, hskipn, hskipr, hnl, hforce, hrest,
                List.filter_cons, hsf]
            | false =>
              simp [filterCodespaces, hskipn, hskipr, hnl, hforce,
                confirmDeletion, hclean, hrest, List.filter_cons, hsf]
        · obtain ⟨t, ht⟩ := Option.isSome_iff_exists.mp
            (h1 c (List.mem_cons_self _ _) hn hr hk)
          have hkne : opts.keepDays ≠ 0 := Nat.pos_iff_ne_zero.mp hk
          rcases lt_or_le (now - 86400 * (opts.keepDays : Int)) t with hlt | hle
          · have hage : ageOk parse now opts c = false := by
              simp [ageOk, ht, hkne, not_le.mpr hlt]
            have hsf : survivesFilters parse now opts nameFilter c = false := by
              simp [survivesFilters, hage]
            simp [filterCodespaces, hskipn, hskipr, hk, ht, hlt, hrest,
              List.filter_cons, hsf]
          · have hage : ageOk parse now opts c = true := by
              simp [ageOk, ht, hle]
            have hsf : survivesFilters parse now opts nameFilter c = true := by
              simp [survivesFilters, hn, hr, hage]
            have hnlt : ¬ (now - 86400 * (opts.keepDays : Int) < t) := not_lt.mpr hle
            rcases h2 c (List.mem_cons_self _ _) hsf with hforce | hclean
            · simp [filterCodespaces, hskipn, hskipr, hk, ht, hnlt, hforce,
                hrest, List.filter_cons, hsf]
            · cases hforce : opts.skipConfirm with
              | true =>
                simp [filterCodespaces, hskipn, hskipr, hk, ht, hnlt, hforce,
                  hrest, List.filter_cons, hsf]
              | false =>
                simp [filterCodespaces, hskipn, hskipr, hk, ht, hnlt, hforce,
                  confirmDeletion, hclean, hrest, List.filter_cons, hsf]

theorem filterCodespaces_unparseable (parse : String → Option Int)
    (promptAnswer : String → Bool) (now : Int) (opts : deleteOptions)
    (nameFilter : String) (css : List Codespace) (c : Codespace)
    (hforce : opts.skipConfirm = true) (hk : 0 < opts.keepDays) (hc : c ∈ css)
    (hn : nameOk nameFilter c = true) (hr : repoOk opts c = true)
    (hp : parse c.lastUsedAt = none) :
    isOkB (filterCodespaces parse promptAnswer now opts nameFilter css) = false := by
  induction css with
  | nil => cases hc
  | cons d rest ih =>
    rcases List.mem_cons.mp hc with rfl | hmem
    · have hskipn : (nameFilter != "" && c.name != nameFilter) = false := by
        rw [skipName_eq, hn]; rfl
      have hskipr : (opts.repoFilter != ""
          && !(equalFold c.repositoryFullName opts.repoFilter)) = false := by
        rw [skipRepo_eq, hr]; rfl
      simp [filterCodespaces, hskipn, hskipr, hk, hp, isOkB]
    · have hrec := ih hmem
      cases hd1 : (nameFilter != "" && d.name != nameFilter) with
      | true => simpa [filterCodespaces, hd1] using hrec
      | false =>
        cases hd2 : (opts.repoFilter != ""
            && !(equalFold d.repositoryFullName opts.repoFilter)) with
        | true => simpa [filterCodespaces, hd1, hd2] using hrec
        | false =>
          cases hdp : parse d.lastUsedAt with
          | none => simp [filterCodespaces, hd1, hd2, hk, hdp, isOkB]
          | some t =>
            by_cases hlt : now - 86400 * (opts.keepDays : Int) < t
            · simpa [filterCodespaces, hd1, hd2, hk, hdp, hlt] using hrec
            · obtain ⟨e, he⟩ : ∃ e,
                  filterCodespaces parse promptAnswer now opts nameFilter rest =
                    Except.error e := by
                cases hres : filterCodespaces parse promptAnswer now opts nameFilter rest with
                | error e => exact ⟨e, rfl⟩
                | ok out => rw [hres] at hrec; simp [isOkB] at hrec
              simp [filterCodespaces, hd1, hd2, hk, hdp, hlt, hforce, he, isOkB]

/-- **C6**. The delete filter realizes the intersection of its predicates:
when every candidate reaching the age check has a parseable timestamp and
every candidate passing all filters needs no prompt (force set or no
unsaved changes), the surviving set is exactly the candidates satisfying
the conjunction of name match, case-insensitive repository match, and
`last-used-at <= now - keepDays`, with no prompt shown; a candidate that
passes the name and repository filters but has an unparseable timestamp
aborts the whole operation with an error (not a silent skip); and an empty
surviving set yields the distinct "no codespaces to delete" error, never a
silent success. -/
theorem c6_filter_semantics :
    (∀ (parse : String → Option Int) (promptAnswer : String → Bool) (now : Int)
        (opts : deleteOptions) (nameFilter : String) (css : List Codespace),
      (∀ c ∈ css, nameOk nameFilter c = true → repoOk opts c = true →
        0 < opts.keepDays → (parse c.lastUsedAt).isSome = true) →
      (∀ c ∈ css, survivesFilters parse now opts nameFilter c = true →
        opts.skipConfirm = true ∨ hasUnsavedChanges c = false) →
      filterCodespaces parse promptAnswer now opts nameFilter css =
        Except.ok ⟨css.filter (survivesFilters parse now opts nameFilter), []⟩) ∧
      (∀ (parse : String → Option Int) (promptAnswer : String → Bool) (now : Int)
          (opts : deleteOptions) (nameFilter : String) (css : List Codespace)
          (c : Codespace),
        opts.skipConfirm = true → 0 < opts.keepDays → c ∈ css →
        nameOk nameFilter c = true → repoOk opts c = true →
        parse c.lastUsedAt = none →
        isOkB (filterCodespaces parse promptAnswer now opts nameFilter css) = false) ∧
      (∀ (parse : String → Option Int) (promptAnswer : String → Bool) (now : Int)
          (opts : deleteOptions) (nameFilter : String) (css : List Codespace)
          (outcome : String → Except String Unit) (prompts : List String),
        filterCodespaces parse promptAnswer now opts nameFilter css =
          Except.ok ⟨[], prompts⟩ →
        DeleteAfterResolve parse promptAnswer now opts nameFilter css outcome =
          (Except.error "no codespaces to delete", [])) := by
  refine ⟨filterCodespaces_intersection, filterCodespaces_unparseable,
    fun parse promptAnswer now opts nameFilter css outcome prompts h => ?_⟩
  simp [DeleteAfterResolve, h]

/-- **C6** witness: with `keepDays = 30`, the clean 45-day-old candidate
survives with no confirmation prompt while the 10-day-old one is excluded;
an unparseable candidate under `--force` aborts with an error; and an empty
candidate set produces the "no codespaces to delete" error. -/
theorem c6_filter_semantics_witness :
    ((∀ c ∈ [cs45, cs10], nameOk "" c = true → repoOk scenarioOpts c = true →
        0 < scenarioOpts.keepDays → (scenarioParse c.lastUsedAt).isSome = true) ∧
      (∀ c ∈ [cs45, cs10], survivesFilters scenarioParse 0 scenarioOpts "" c = true →
        scenarioOpts.skipConfirm = true ∨ hasUnsavedChanges c = false) ∧
      filterCodespaces scenarioParse (fun _ => false) 0 scenarioOpts "" [cs45, cs10] =
        Except.ok ⟨[cs45], []⟩) ∧
      (forceOpts.skipConfirm = true ∧ 0 < forceOpts.keepDays ∧ csBad ∈ [csBad] ∧
        nameOk "" csBad = true ∧ repoOk forceOpts csBad = true ∧
        scenarioParse csBad.lastUsedAt = none ∧
        isOkB (filterCodespaces scenarioParse (fun _ => false) 0 forceOpts "" [csBad])
          = false) ∧
      (filterCodespaces scenarioParse (fun _ => false) 0 scenarioOpts "" [] =
          Except.ok ⟨[], []⟩ ∧
        DeleteAfterResolve scenarioParse (fun _ => false) 0 scenarioOpts "" []
            (fun _ => Except.ok ()) =
          (Except.error "no codespaces to delete", [])) := by
  refine ⟨⟨by decide, by decide, ?_⟩,
    ⟨by decide, by decide, by decide, by decide, by decide, by decide, ?_⟩,
    ⟨by decide, ?_⟩⟩
  · exact (c6_filter_semantics.1 scenarioParse (fun _ => false) 0 scenarioOpts ""
      [cs45, cs10] (by decide) (by decide)).trans (by decide)
  · exact c6_filter_semantics.2.1 scenarioParse (fun _ => false) 0 forceOpts ""
      [csBad] csBad (by decide) (by decide) (by decide) (by decide) (by decide)
      (by decide)
  · exact c6_filter_semantics.2.2 scenarioParse (fun _ => false) 0 scenarioOpts ""
      [] (fun _ => Except.ok ()) [] (by decide)

/-- **C3**. In the delete fan-out over the N accepted codespaces with K
failing delete calls: every one of the N calls completes (the log lines and
the surviving deletions partition the N items), exactly K failures are
individually logged, each with the failing item's name; the aggregate
result is the non-itemized "some codespaces failed to delete" error exactly
when K > 0; and every item whose delete call succeeded stays deleted. -/
theorem c3_bulk_delete_execution (outcome : String → Except String Unit)
    (names : List String) :
    ((runDeletes outcome names).length =
        (names.filter (fun n => !(isOkB (outcome n)))).length) ∧
      ((runDeletes outcome names).length + (deletedNames outcome names).length
        = names.length) ∧
      (deleteAggregate outcome names = Except.error "some codespaces failed to delete"
        ↔ 0 < (names.filter (fun n => !(isOkB (outcome n)))).length) ∧
      (∀ n ∈ names, ∀ e, outcome n = Except.error e →
        deleteErrMsg n e ∈ runDeletes outcome names) ∧
      (∀ n ∈ names, isOkB (outcome n) = true → n ∈ deletedNames outcome names) := by
  refine ⟨?_, ?_, ?_, ?_, ?_⟩
  · induction names with
    | nil => simp [runDeletes]
    | cons n rest ih =>
      cases h : outcome n <;>
        simp [runDeletes, List.filterMap_cons, List.filter_cons, isOkB, h] <;>
        simpa [runDeletes] using ih
  · induction names with
    | nil => simp [runDeletes, deletedNames]
    | cons n rest ih =>
      cases h : outcome n with
      | ok u =>
        have e1 : runDeletes outcome (n :: rest) = runDeletes outcome rest := by
          simp [runDeletes, List.filterMap_cons, h]
        have e2 : deletedNames outcome (n :: rest) = n :: deletedNames outcome rest := by
          simp [deletedNames, List.filter_cons, isOkB, h]
        rw [e1, e2]
        simp only [List.length_cons]
        omega
      | error e =>
        have e1 : runDeletes outcome (n :: rest)
            = deleteErrMsg n e :: runDeletes outcome rest := by
          simp [runDeletes, List.filterMap_cons, h]
        have e2 : deletedNames outcome (n :: rest) = deletedNames outcome rest := by
          simp [deletedNames, List.filter_cons, isOkB, h]
        rw [e1, e2]
        simp only [List.length_cons]
        omega
  · induction names with
    | nil => simp [deleteAggregate]
    | cons n rest ih =>
      cases h : outcome n with
      | error e =>
        simp [deleteAggregate, List.filter_cons, List.any_cons, isOkB, h]
      | ok u =>
        simpa [deleteAggregate, List.filter_cons, List.any_cons, isOkB, h]
          using ih
  · intro n hn e he
    exact List.mem_filterMap.mpr ⟨n, hn, by simp [he]⟩
  · intro n hn h
    exact List.mem_filter.mpr ⟨hn, by simp [h]⟩

/-- **C3** witness: deleting `a`, `b`, `c` where `b` and `c` fail logs the
two failures with their names, completes all three calls, keeps `a`
deleted, and reports the aggregate failure. -/
theorem c3_bulk_delete_execution_witness :
    ((runDeletes failTwoOutcome ["a", "b", "c"]).length =
        ((["a", "b", "c"] : List String).filter
          (fun n => !(isOkB (failTwoOutcome n)))).length) ∧
      ((runDeletes failTwoOutcome ["a", "b", "c"]).length
          + (deletedNames failTwoOutcome ["a", "b", "c"]).length = 3) ∧
      (deleteAggregate failTwoOutcome ["a", "b", "c"] =
          Except.error "some codespaces failed to delete" ↔
        0 < ((["a", "b", "c"] : List String).filter
          (fun n => !(isOkB (failTwoOutcome n)))).length) ∧
      (failTwoOutcome "b" = Except.error "rate limited" ∧
        deleteErrMsg "b" "rate limited" ∈ runDeletes failTwoOutcome ["a", "b", "c"]) ∧
      (isOkB (failTwoOutcome "a") = true ∧
        "a" ∈ deletedNames failTwoOutcome ["a", "b", "c"]) := by
  have h := c3_bulk_delete_execution failTwoOutcome ["a", "b", "c"]
  refine ⟨h.1, h.2.1, h.2.2.1, ⟨by decide, ?_⟩, ⟨by decide, ?_⟩⟩
  · exact h.2.2.2.1 "b" (by decide) "rate limited" (by decide)
  · exact h.2.2.2.2 "a" (by decide) (by decide)

end Gh
